import Mathlib

/-!
# Verification of the rust65 6502 emulator core

Shallow embedding of `src/main.rs` of the rust65 repository: the register
file, the 64KB memory, the `boot` reset sequence and the `step`
fetch-decode-execute function, translated line by line from the Rust source.

Machine integers are modelled as `Nat` with explicit `% 256` / `% 65536`
where the Rust source uses `u8` / `u16` wrapping arithmetic (`wrapping_add`,
`wrapping_sub`, `& 0xFFFF` masks).  Memory is a total function `Nat → Nat`;
the well-formedness predicate `CPU.WF` records the bounds the Rust types
guarantee (`u8` array cells, `u8` registers, `u16` program counter).
-/

/-- The 6502 register file, mirroring `struct Registers` in the source:
`a`, `x`, `y`, `flags`, `sp` are `u8`; `pc` is `u16`. -/
structure Registers where
  a : Nat
  x : Nat
  y : Nat
  flags : Nat
  pc : Nat
  sp : Nat

/-- The processor: register file plus a 64KB byte memory,
mirroring `struct CPU` in the source. -/
structure CPU where
  registers : Registers
  memory : Nat → Nat

/-- Pointwise functional update of the memory array:
`self.memory[addr] = v`. -/
def updateMem (m : Nat → Nat) (addr v : Nat) : Nat → Nat :=
  fun i => if i = addr then v else m i

namespace CPU

/-- `CPU::new()`: all registers zero, memory zero-initialized. -/
def new : CPU :=
  { registers := { a := 0, x := 0, y := 0, flags := 0, pc := 0, sp := 0 },
    memory := fun _ => 0 }

/-- `CPU::boot()`: load the little-endian reset vector at `0xFFFC`/`0xFFFD`
into `pc` and set the stack pointer to `0xFF`. -/
def boot (c : CPU) : CPU :=
  let pl := c.memory 0xFFFC
  let ph := c.memory 0xFFFD <<< 8
  { c with registers := { c.registers with sp := 0xFF, pc := pl ||| ph } }

/-- The dispatch body of `CPU::step()`: the operand fetch followed by the
opcode `if` chain (lines 110-240 of the source).  Returns the `advance`
value together with the updated registers and memory.  The final common
epilogue (pc advance and flag write, lines 246-249) lives in `step`.

Branches, mirroring the source's sequential `if opcode == ...` tests
(at most one fires since they test the same fetched byte):
* `0xE6` INC zero page, `advance = 2`, `memory[bp1] += 1` wrapping;
* `0x4C` JMP absolute, `advance = 0`, `pc = offset`;
* `0x6C` JMP indirect, `advance = 0`, `pc = indirect_addr`;
* `0xA9` LDA immediate, `advance = 2`, `a = bp1`;
* `0xA5` LDA zero page, `advance = 2`, `a = memory[bp1]`;
* `0xAD` LDA absolute, `advance = 2` in the source, `a = memory[offset]`;
* `0x48` PHA, `advance = 1`, write `a` at `0x0100 | sp` then decrement `sp`;
* `0x68` PLA, `advance = 1`, read `a` from `0x0100 | sp` then increment `sp`;
* any other opcode leaves the default `advance = 1` and changes nothing. -/
def stepResult (c : CPU) : Nat × Registers × (Nat → Nat) :=
  let r := c.registers
  let m := c.memory
  let opcode := m r.pc
  let bp1 := m ((r.pc + 1) % 65536)
  let bp2 := m ((r.pc + 2) % 65536)
  let offset := bp1 ||| (bp2 <<< 8)
  let offset_plus_one := (offset + 1) % 65536
  let indirect_byte := m offset
  let indirect_addr := indirect_byte ||| (m offset_plus_one <<< 8)
  if opcode = 0xE6 then
    (2, r, updateMem m bp1 ((m bp1 + 1) % 256))
  else if opcode = 0x4C then
    (0, { r with pc := offset }, m)
  else if opcode = 0x6C then
    (0, { r with pc := indirect_addr }, m)
  else if opcode = 0xA9 then
    (2, { r with a := bp1 }, m)
  else if opcode = 0xA5 then
    (2, { r with a := m bp1 }, m)
  else if opcode = 0xAD then
    (2, { r with a := m offset }, m)
  else if opcode = 0x48 then
    (1, { r with sp := (r.sp + 255) % 256 }, updateMem m (0x0100 ||| r.sp) r.a)
  else if opcode = 0x68 then
    (1, { r with a := m (0x0100 ||| r.sp), sp := (r.sp + 1) % 256 }, m)
  else
    (1, r, m)

/-- `CPU::step()`: dispatch via `stepResult`, then the common epilogue:
`pc = (pc + advance) & 0xFFFF` and `flags = flag_output`, where
`flag_output` is initialized to `0` and never reassigned in the source. -/
def step (c : CPU) : CPU :=
  let res := c.stepResult
  let advance := res.1
  let r := res.2.1
  let m := res.2.2
  let flag_output := 0
  { registers := { r with pc := (r.pc + advance) % 65536, flags := flag_output },
    memory := m }

/-- Well-formedness: the bounds guaranteed by the Rust types
(`u8` registers and memory cells, `u16` program counter). -/
def WF (c : CPU) : Prop :=
  c.registers.a < 256 ∧ c.registers.x < 256 ∧ c.registers.y < 256 ∧
  c.registers.flags < 256 ∧ c.registers.sp < 256 ∧ c.registers.pc < 65536 ∧
  ∀ i, c.memory i < 256

end CPU

/-! Status-register bit positions, from the 6502 register documentation the
source cites (carry = bit 0, zero = bit 1, interrupt disable = bit 2,
decimal = bit 3, overflow = bit 6, negative = bit 7). -/

/-- Carry flag: bit 0 of the status byte. -/
def carryFlag (flags : Nat) : Bool := flags.testBit 0

/-- Zero flag: bit 1 of the status byte. -/
def zeroFlag (flags : Nat) : Bool := flags.testBit 1

/-- Interrupt-disable flag: bit 2 of the status byte. -/
def interruptFlag (flags : Nat) : Bool := flags.testBit 2

/-- Decimal-mode flag: bit 3 of the status byte. -/
def decimalFlag (flags : Nat) : Bool := flags.testBit 3

/-- Overflow flag: bit 6 of the status byte. -/
def overflowFlag (flags : Nat) : Bool := flags.testBit 6

/-- Negative flag: bit 7 of the status byte. -/
def negativeFlag (flags : Nat) : Bool := flags.testBit 7

/-- Combining a low byte and a shifted high byte with `|` is ordinary
little-endian recombination `lo + 256 * hi`, provided `lo` fits in a byte. -/
theorem lor_shiftLeft_eq_add {lo : Nat} (hi : Nat) (h : lo < 256) :
    lo ||| (hi <<< 8) = lo + 256 * hi := by
  apply Nat.eq_of_testBit_eq
  intro j
  have h8 : lo < 2 ^ 8 := h
  rw [Nat.testBit_or, Nat.testBit_shiftLeft,
    show lo + 256 * hi = 2 ^ 8 * hi + lo by ring,
    Nat.testBit_mul_pow_two_add hi h8 j]
  by_cases hj : j < 8
  · simp [hj, Nat.not_le_of_lt hj]
  · have hfalse : lo.testBit j = false :=
      Nat.testBit_lt_two_pow (lt_of_lt_of_le h8 (Nat.pow_le_pow_right (by norm_num) (Nat.le_of_not_lt hj)))
    simp [hj, Nat.le_of_not_lt hj, hfalse]

-- sanity checks, evaluating the embedding on the program of `main()`
example :
    (CPU.step { registers := { a := 0, x := 0, y := 0, flags := 0, pc := 0x0200, sp := 0xFF },
                memory := fun i => if i = 0x0200 then 0xA9 else if i = 0x0201 then 0x69 else 0 }).registers.a = 0x69 := by
  rfl

example :
    (CPU.boot { registers := { a := 0, x := 0, y := 0, flags := 0, pc := 0, sp := 0 },
                memory := fun i => if i = 0xFFFC then 0x00 else if i = 0xFFFD then 0x02 else 0 }).registers.pc = 0x0200 := by
  rfl

namespace CPU

/-- Unfolding of `step` in terms of `stepResult`. -/
theorem step_eq (c : CPU) :
    c.step = { registers := { c.stepResult.2.1 with
                 pc := (c.stepResult.2.1.pc + c.stepResult.1) % 65536,
                 flags := 0 },
               memory := c.stepResult.2.2 } := rfl

/-- The flag epilogue of `step` writes `flag_output = 0` unconditionally. -/
theorem step_flags (c : CPU) : c.step.registers.flags = 0 := rfl

/-- Dispatch on `LDA` immediate (opcode `0xA9`). -/
theorem stepResult_lda_imm (c : CPU) (h : c.memory c.registers.pc = 0xA9) :
    c.stepResult = (2, { c.registers with a := c.memory ((c.registers.pc + 1) % 65536) }, c.memory) := by
  simp [stepResult, h]

/-- Dispatch on `INC` zero page (opcode `0xE6`). -/
theorem stepResult_inc_zp (c : CPU) (h : c.memory c.registers.pc = 0xE6) :
    c.stepResult = (2, c.registers,
      updateMem c.memory (c.memory ((c.registers.pc + 1) % 65536))
        ((c.memory (c.memory ((c.registers.pc + 1) % 65536)) + 1) % 256)) := by
  simp [stepResult, h]

/-- Dispatch on `JMP` absolute (opcode `0x4C`). -/
theorem stepResult_jmp_abs (c : CPU) (h : c.memory c.registers.pc = 0x4C) :
    c.stepResult = (0, { c.registers with
      pc := c.memory ((c.registers.pc + 1) % 65536) |||
            (c.memory ((c.registers.pc + 2) % 65536) <<< 8) }, c.memory) := by
  simp [stepResult, h]

/-- Dispatch on `JMP` indirect (opcode `0x6C`). -/
theorem stepResult_jmp_ind (c : CPU) (h : c.memory c.registers.pc = 0x6C) :
    c.stepResult = (0, { c.registers with
      pc :=
        c.memory (c.memory ((c.registers.pc + 1) % 65536) |||
                  (c.memory ((c.registers.pc + 2) % 65536) <<< 8)) |||
        (c.memory (((c.memory ((c.registers.pc + 1) % 65536) |||
                     (c.memory ((c.registers.pc + 2) % 65536) <<< 8)) + 1) % 65536) <<< 8) },
      c.memory) := by
  simp [stepResult, h]

/-- Dispatch on `LDA` zero page (opcode `0xA5`). -/
theorem stepResult_lda_zp (c : CPU) (h : c.memory c.registers.pc = 0xA5) :
    c.stepResult = (2, { c.registers with
      a := c.memory (c.memory ((c.registers.pc + 1) % 65536)) }, c.memory) := by
  simp [stepResult, h]

/-- Dispatch on `LDA` absolute (opcode `0xAD`): the source sets `advance = 2`. -/
theorem stepResult_lda_abs (c : CPU) (h : c.memory c.registers.pc = 0xAD) :
    c.stepResult = (2, { c.registers with
      a := c.memory (c.memory ((c.registers.pc + 1) % 65536) |||
                     (c.memory ((c.registers.pc + 2) % 65536) <<< 8)) }, c.memory) := by
  simp [stepResult, h]

/-- Dispatch on `PHA` (opcode `0x48`). -/
theorem stepResult_pha (c : CPU) (h : c.memory c.registers.pc = 0x48) :
    c.stepResult = (1, { c.registers with sp := (c.registers.sp + 255) % 256 },
      updateMem c.memory (0x0100 ||| c.registers.sp) c.registers.a) := by
  simp [stepResult, h]

/-- Dispatch on `PLA` (opcode `0x68`). -/
theorem stepResult_pla (c : CPU) (h : c.memory c.registers.pc = 0x68) :
    c.stepResult = (1, { c.registers with
      a := c.memory (0x0100 ||| c.registers.sp),
      sp := (c.registers.sp + 1) % 256 }, c.memory) := by
  simp [stepResult, h]

/-- Dispatch on any opcode with no defined mapping: the default path. -/
theorem stepResult_default (c : CPU)
    (h1 : c.memory c.registers.pc ≠ 0xE6) (h2 : c.memory c.registers.pc ≠ 0x4C)
    (h3 : c.memory c.registers.pc ≠ 0x6C) (h4 : c.memory c.registers.pc ≠ 0xA9)
    (h5 : c.memory c.registers.pc ≠ 0xA5) (h6 : c.memory c.registers.pc ≠ 0xAD)
    (h7 : c.memory c.registers.pc ≠ 0x48) (h8 : c.memory c.registers.pc ≠ 0x68) :
    c.stepResult = (1, c.registers, c.memory) := by
  simp [stepResult, h1, h2, h3, h4, h5, h6, h7, h8]

end CPU

/-- C10: after every call to `step()`, regardless of the opcode executed and
of the prior state, the flags register equals 0, so every flag bit (carry,
zero, interrupt-disable, decimal, overflow, negative) is cleared. -/
theorem claim_C10_flags_zero_after_every_step (c : CPU) :
    (CPU.step c).registers.flags = 0 ∧
    carryFlag (CPU.step c).registers.flags = false ∧
    zeroFlag (CPU.step c).registers.flags = false ∧
    interruptFlag (CPU.step c).registers.flags = false ∧
    decimalFlag (CPU.step c).registers.flags = false ∧
    overflowFlag (CPU.step c).registers.flags = false ∧
    negativeFlag (CPU.step c).registers.flags = false := by
  refine ⟨CPU.step_flags c, ?_, ?_, ?_, ?_, ?_, ?_⟩ <;>
    rw [CPU.step_flags c] <;> decide

/-- C6: for every memory image, `boot()` sets `sp` to the documented
post-reset value `0xFF`, sets `pc` to the little-endian 16-bit value formed
from the bytes at `0xFFFC` (low) and `0xFFFD` (high), and modifies nothing
else (accumulator, `x`, `y`, flags and all of memory are untouched). -/
theorem claim_C6_boot_contract (c : CPU) (h : c.memory 0xFFFC < 256) :
    (CPU.boot c).registers.sp = 0xFF ∧
    (CPU.boot c).registers.pc = c.memory 0xFFFC + 256 * c.memory 0xFFFD ∧
    (CPU.boot c).registers.a = c.registers.a ∧
    (CPU.boot c).registers.x = c.registers.x ∧
    (CPU.boot c).registers.y = c.registers.y ∧
    (CPU.boot c).registers.flags = c.registers.flags ∧
    ∀ i, (CPU.boot c).memory i = c.memory i := by
  refine ⟨rfl, ?_, rfl, rfl, rfl, rfl, fun i => rfl⟩
  show c.memory 0xFFFC ||| (c.memory 0xFFFD <<< 8) = _
  exact lor_shiftLeft_eq_add _ h

/-- Witness for C6 at the zero-initialized processor. -/
theorem claim_C6_boot_contract_witness :
    (CPU.boot CPU.new).registers.sp = 0xFF ∧
    (CPU.boot CPU.new).registers.pc =
      CPU.new.memory 0xFFFC + 256 * CPU.new.memory 0xFFFD :=
  ⟨(claim_C6_boot_contract CPU.new (by decide)).1,
   (claim_C6_boot_contract CPU.new (by decide)).2.1⟩

/-- The concrete memory image of the C5 scenario: reset vector `0x0200`,
`LDA #$69` at `0x0200`. -/
def mem5 : Nat → Nat := fun i =>
  if i = 0xFFFC then 0x00 else if i = 0xFFFD then 0x02 else
  if i = 0x0200 then 0xA9 else if i = 0x0201 then 0x69 else 0

/-- The concrete starting processor of the C5 scenario. -/
def cpu5 : CPU :=
  { registers := { a := 0, x := 0, y := 0, flags := 0, pc := 0, sp := 0 },
    memory := mem5 }

/-- C5: if the reset vector bytes `0xFFFC`/`0xFFFD` hold `0x00`/`0x02`
(little-endian `0x0200`), the byte at `0x0200` is `0xA9` (LDA immediate) and
the byte at `0x0201` is `0x69`, then after `boot()` followed by one
`step()`: `pc = 0x0202`, the accumulator equals `0x69`, the zero flag is
clear, and the negative flag is clear. -/
theorem claim_C5_boot_lda_scenario (c : CPU)
    (hv1 : c.memory 0xFFFC = 0x00) (hv2 : c.memory 0xFFFD = 0x02)
    (hop : c.memory 0x0200 = 0xA9) (harg : c.memory 0x0201 = 0x69) :
    (CPU.step (CPU.boot c)).registers.pc = 0x0202 ∧
    (CPU.step (CPU.boot c)).registers.a = 0x69 ∧
    zeroFlag (CPU.step (CPU.boot c)).registers.flags = false ∧
    negativeFlag (CPU.step (CPU.boot c)).registers.flags = false := by
  have hb : (CPU.boot c).registers.pc = 0x0200 := by
    show c.memory 0xFFFC ||| (c.memory 0xFFFD <<< 8) = 0x0200
    rw [hv1, hv2]; decide
  have hbm : (CPU.boot c).memory = c.memory := rfl
  have hop' : (CPU.boot c).memory (CPU.boot c).registers.pc = 0xA9 := by
    rw [hbm, hb]; exact hop
  have hsr := CPU.stepResult_lda_imm (CPU.boot c) hop'
  refine ⟨?_, ?_, ?_, ?_⟩ <;>
    rw [CPU.step_eq, hsr] <;>
    simp [hb, hbm, harg, zeroFlag, negativeFlag]

/-- Witness for C5 at the concrete scenario image `cpu5`. -/
theorem claim_C5_boot_lda_scenario_witness :
    (CPU.step (CPU.boot cpu5)).registers.pc = 0x0202 ∧
    (CPU.step (CPU.boot cpu5)).registers.a = 0x69 ∧
    zeroFlag (CPU.step (CPU.boot cpu5)).registers.flags = false ∧
    negativeFlag (CPU.step (CPU.boot cpu5)).registers.flags = false :=
  claim_C5_boot_lda_scenario cpu5 (by decide) (by decide) (by decide) (by decide)

/-- A pointwise memory update keeps every cell below 256 when the written
value is below 256. -/
theorem updateMem_lt (m : Nat → Nat) (addr v : Nat) (hv : v < 256)
    (hm : ∀ i, m i < 256) : ∀ i, updateMem m addr v i < 256 := by
  intro i
  unfold updateMem
  split
  · exact hv
  · exact hm i

/-- C7: `step()` is a total function (it is defined on every processor
state), and on every well-formed state (any `u8` registers, any `u16` `pc`,
any byte memory) it produces a well-formed state: the pc advance, operand
addresses and indirect-pointer reads wrap modulo 65536 and the INC and
stack-pointer byte arithmetic wraps modulo 256, so no array access can
leave the 64KB range and no arithmetic can overflow. -/
theorem claim_C7_step_total_and_wrapping (c : CPU) (h : CPU.WF c) :
    CPU.WF (CPU.step c) := by
  obtain ⟨ha, hx, hy, hf, hsp, hpc, hm⟩ := h
  unfold CPU.WF
  rw [CPU.step_eq]
  by_cases h1 : c.memory c.registers.pc = 0xE6
  · rw [CPU.stepResult_inc_zp c h1]
    exact ⟨ha, hx, hy, Nat.succ_pos 255, hsp, Nat.mod_lt _ (by norm_num),
      updateMem_lt _ _ _ (Nat.mod_lt _ (by norm_num)) hm⟩
  by_cases h2 : c.memory c.registers.pc = 0x4C
  · rw [CPU.stepResult_jmp_abs c h2]
    exact ⟨ha, hx, hy, Nat.succ_pos 255, hsp, Nat.mod_lt _ (by norm_num), hm⟩
  by_cases h3 : c.memory c.registers.pc = 0x6C
  · rw [CPU.stepResult_jmp_ind c h3]
    exact ⟨ha, hx, hy, Nat.succ_pos 255, hsp, Nat.mod_lt _ (by norm_num), hm⟩
  by_cases h4 : c.memory c.registers.pc = 0xA9
  · rw [CPU.stepResult_lda_imm c h4]
    exact ⟨hm _, hx, hy, Nat.succ_pos 255, hsp, Nat.mod_lt _ (by norm_num), hm⟩
  by_cases h5 : c.memory c.registers.pc = 0xA5
  · rw [CPU.stepResult_lda_zp c h5]
    exact ⟨hm _, hx, hy, Nat.succ_pos 255, hsp, Nat.mod_lt _ (by norm_num), hm⟩
  by_cases h6 : c.memory c.registers.pc = 0xAD
  · rw [CPU.stepResult_lda_abs c h6]
    exact ⟨hm _, hx, hy, Nat.succ_pos 255, hsp, Nat.mod_lt _ (by norm_num), hm⟩
  by_cases h7 : c.memory c.registers.pc = 0x48
  · rw [CPU.stepResult_pha c h7]
    exact ⟨ha, hx, hy, Nat.succ_pos 255, Nat.mod_lt _ (by norm_num),
      Nat.mod_lt _ (by norm_num), updateMem_lt _ _ _ ha hm⟩
  by_cases h8 : c.memory c.registers.pc = 0x68
  · rw [CPU.stepResult_pla c h8]
    exact ⟨hm _, hx, hy, Nat.succ_pos 255, Nat.mod_lt _ (by norm_num),
      Nat.mod_lt _ (by norm_num), hm⟩
  rw [CPU.stepResult_default c h1 h2 h3 h4 h5 h6 h7 h8]
  exact ⟨ha, hx, hy, Nat.succ_pos 255, hsp, Nat.mod_lt _ (by norm_num), hm⟩

/-- Witness for C7 at the zero-initialized processor. -/
theorem claim_C7_step_total_and_wrapping_witness : CPU.WF (CPU.step CPU.new) :=
  claim_C7_step_total_and_wrapping CPU.new
    ⟨by decide, by decide, by decide, by decide, by decide, by decide,
     fun i => Nat.succ_pos 255⟩

/-- A concrete state about to execute an unassigned opcode (`0xEA`, NOP on
real hardware) with the carry flag set beforehand. -/
def cpuNop : CPU :=
  { registers := { a := 7, x := 3, y := 4, flags := 1, pc := 0x0200, sp := 0x80 },
    memory := fun i => if i = 0x0200 then 0xEA else 0 }

/-- C8 counterexample: executing the unassigned opcode `0xEA` with the
flags byte equal to `1` (carry set) does NOT leave the flags byte
unchanged — the epilogue of `step` rewrites it to `0`. -/
theorem claim_C8_counterexample :
    cpuNop.memory cpuNop.registers.pc = 0xEA ∧
    cpuNop.registers.flags = 1 ∧
    (CPU.step cpuNop).registers.flags ≠ cpuNop.registers.flags := by
  decide

/-- C8 (amended): for every opcode byte with no defined mapping (not one of
`0xE6`, `0x4C`, `0x6C`, `0xA9`, `0xA5`, `0xAD`, `0x48`, `0x68`), `step()`
leaves the accumulator, `x`, `y`, `sp` and every memory byte unchanged and
advances `pc` by 1 (mod 65536); the flags byte however is not preserved but
set to 0, as the epilogue does after every instruction. -/
theorem claim_C8_undefined_opcode_noop (c : CPU)
    (h1 : c.memory c.registers.pc ≠ 0xE6) (h2 : c.memory c.registers.pc ≠ 0x4C)
    (h3 : c.memory c.registers.pc ≠ 0x6C) (h4 : c.memory c.registers.pc ≠ 0xA9)
    (h5 : c.memory c.registers.pc ≠ 0xA5) (h6 : c.memory c.registers.pc ≠ 0xAD)
    (h7 : c.memory c.registers.pc ≠ 0x48) (h8 : c.memory c.registers.pc ≠ 0x68) :
    (CPU.step c).registers.a = c.registers.a ∧
    (CPU.step c).registers.x = c.registers.x ∧
    (CPU.step c).registers.y = c.registers.y ∧
    (CPU.step c).registers.sp = c.registers.sp ∧
    (∀ i, (CPU.step c).memory i = c.memory i) ∧
    (CPU.step c).registers.pc = (c.registers.pc + 1) % 65536 ∧
    (CPU.step c).registers.flags = 0 := by
  rw [CPU.step_eq, CPU.stepResult_default c h1 h2 h3 h4 h5 h6 h7 h8]
  exact ⟨rfl, rfl, rfl, rfl, fun i => rfl, rfl, rfl⟩

/-- Witness for the amended C8 at the concrete state `cpuNop`. -/
theorem claim_C8_undefined_opcode_noop_witness :
    (CPU.step cpuNop).registers.a = cpuNop.registers.a ∧
    (CPU.step cpuNop).registers.sp = cpuNop.registers.sp ∧
    (CPU.step cpuNop).registers.pc = (cpuNop.registers.pc + 1) % 65536 ∧
    (CPU.step cpuNop).registers.flags = 0 := by
  obtain ⟨g1, g2, g3, g4, g5, g6, g7⟩ :=
    claim_C8_undefined_opcode_noop cpuNop (by decide) (by decide) (by decide)
      (by decide) (by decide) (by decide) (by decide) (by decide)
  exact ⟨g1, g4, g6, g7⟩

/-- A concrete state about to execute `CLC` (`0x18`) twice, with the zero
flag set beforehand. -/
def cpuClc : CPU :=
  { registers := { a := 0, x := 0, y := 0, flags := 2, pc := 0x0200, sp := 0xFF },
    memory := fun i => if i = 0x0200 then 0x18 else if i = 0x0201 then 0x18 else 0 }

/-- C9 counterexample: running `CLC` twice from `cpuClc` leaves carry clear
after each step, but the zero flag — set before the first `CLC` — is wiped
by the first step, so a flag bit other than carry does change. -/
theorem claim_C9_counterexample :
    cpuClc.memory cpuClc.registers.pc = 0x18 ∧
    cpuClc.memory ((cpuClc.registers.pc + 1) % 65536) = 0x18 ∧
    zeroFlag cpuClc.registers.flags = true ∧
    zeroFlag (CPU.step cpuClc).registers.flags = false ∧
    zeroFlag (CPU.step (CPU.step cpuClc)).registers.flags = false := by
  decide

/-- C9 (amended): for every starting state about to execute `CLC` (`0x18`)
twice in a row, the carry flag is cleared after each of the two steps;
however the whole flags byte equals 0 after each step, so every other flag
bit is cleared as well rather than preserved. -/
theorem claim_C9_clc_twice_amended (c : CPU)
    (_h1 : c.memory c.registers.pc = 0x18)
    (_h2 : c.memory ((c.registers.pc + 1) % 65536) = 0x18) :
    carryFlag (CPU.step c).registers.flags = false ∧
    carryFlag (CPU.step (CPU.step c)).registers.flags = false ∧
    (CPU.step c).registers.flags = 0 ∧
    (CPU.step (CPU.step c)).registers.flags = 0 := by
  refine ⟨?_, ?_, CPU.step_flags c, CPU.step_flags _⟩ <;>
    rw [CPU.step_flags] <;> decide

/-- Witness for the amended C9 at the concrete state `cpuClc`. -/
theorem claim_C9_clc_twice_amended_witness :
    carryFlag (CPU.step cpuClc).registers.flags = false ∧
    carryFlag (CPU.step (CPU.step cpuClc)).registers.flags = false ∧
    (CPU.step cpuClc).registers.flags = 0 ∧
    (CPU.step (CPU.step cpuClc)).registers.flags = 0 :=
  claim_C9_clc_twice_amended cpuClc (by decide) (by decide)

/-- A concrete state about to execute `PHA` (`0x48`) then `PLA` (`0x68`),
with accumulator `5`, `sp = 0xFF`, and an all-zero stack page. -/
def cpuPhaPla : CPU :=
  { registers := { a := 5, x := 0, y := 0, flags := 0, pc := 0x0200, sp := 0xFF },
    memory := fun i => if i = 0x0200 then 0x48 else if i = 0x0201 then 0x68 else 0 }

/-- C1 at a concrete failing input: `PHA` then `PLA` from `cpuPhaPla` does
restore `sp` to `0xFF`, but the accumulator ends at `0`, not its pre-PHA
value `5`: `PHA` stores `a` at `0x01FF` and decrements `sp` to `0xFE`, then
`PLA` reads `0x0100 | sp = 0x01FE` — one slot below the pushed byte —
before incrementing `sp`. -/
theorem claim_C1_pha_pla_failing_input :
    cpuPhaPla.registers.a = 5 ∧
    cpuPhaPla.memory cpuPhaPla.registers.pc = 0x48 ∧
    cpuPhaPla.memory ((cpuPhaPla.registers.pc + 1) % 65536) = 0x68 ∧
    (CPU.step (CPU.step cpuPhaPla)).registers.sp = cpuPhaPla.registers.sp ∧
    (CPU.step cpuPhaPla).memory 0x01FF = 5 ∧
    (CPU.step (CPU.step cpuPhaPla)).registers.a = 0 ∧
    (CPU.step (CPU.step cpuPhaPla)).registers.a ≠ cpuPhaPla.registers.a := by
  decide

/-- A concrete state about to execute `LDA #$00` with carry, interrupt and
decimal flags set beforehand (`flags = 0x0D`). -/
def cpuLda0 : CPU :=
  { registers := { a := 9, x := 0, y := 0, flags := 0x0D, pc := 0x0200, sp := 0xFF },
    memory := fun i => if i = 0x0200 then 0xA9 else 0 }

/-- C2 at a concrete failing input: after `LDA #$00` the accumulator is `0`,
but the zero flag is NOT set and the carry/interrupt/decimal flags are NOT
preserved — the epilogue of `step` rewrites the whole flags byte to `0`
regardless of the operation. -/
theorem claim_C2_flag_isolation_failing_input :
    cpuLda0.memory cpuLda0.registers.pc = 0xA9 ∧
    cpuLda0.memory ((cpuLda0.registers.pc + 1) % 65536) = 0x00 ∧
    carryFlag cpuLda0.registers.flags = true ∧
    interruptFlag cpuLda0.registers.flags = true ∧
    decimalFlag cpuLda0.registers.flags = true ∧
    (CPU.step cpuLda0).registers.a = 0 ∧
    (CPU.step cpuLda0).registers.flags = 0 ∧
    zeroFlag (CPU.step cpuLda0).registers.flags = false ∧
    carryFlag (CPU.step cpuLda0).registers.flags = false := by
  decide

/-- A concrete state about to execute `LDA $1234` (opcode `0xAD`,
absolute addressing, documented byte length 3). -/
def cpuLdaAbs : CPU :=
  { registers := { a := 0, x := 0, y := 0, flags := 0, pc := 0x0200, sp := 0xFF },
    memory := fun i =>
      if i = 0x0200 then 0xAD else if i = 0x0201 then 0x34 else
      if i = 0x0202 then 0x12 else 0 }

/-- C3 at a concrete failing input: `LDA` absolute (`0xAD`) advances `pc`
by 2, not by its documented byte length 3 — the source sets `advance = 2`
although its own opcode table lists `0xAD` as a 3-byte instruction. -/
theorem claim_C3_lda_absolute_advance_failing_input :
    cpuLdaAbs.memory cpuLdaAbs.registers.pc = 0xAD ∧
    (CPU.step cpuLdaAbs).registers.pc = cpuLdaAbs.registers.pc + 2 ∧
    (CPU.step cpuLdaAbs).registers.pc ≠ cpuLdaAbs.registers.pc + 3 := by
  decide

/-- The exact C4 scenario state: `INC $00` at `0x0200`, the zero-page byte
`0x0000` holding `0xFF`, flags clear. -/
def cpuInc : CPU :=
  { registers := { a := 0, x := 0, y := 0, flags := 0, pc := 0x0200, sp := 0xFF },
    memory := fun i =>
      if i = 0x0200 then 0xE6 else if i = 0x0201 then 0x00 else
      if i = 0x0000 then 0xFF else 0 }

/-- C4 at its own scenario input: the byte at `0x0000` does wrap from
`0xFF` to `0x00` and the negative flag ends clear, but the zero flag is NOT
set — the flags byte is `0` after the step because `INC` computes no flag
effects and the epilogue writes `flag_output = 0`. -/
theorem claim_C4_inc_wraparound_failing_input :
    cpuInc.memory 0x0000 = 0xFF ∧
    cpuInc.memory cpuInc.registers.pc = 0xE6 ∧
    cpuInc.memory ((cpuInc.registers.pc + 1) % 65536) = 0x00 ∧
    (CPU.step cpuInc).memory 0x0000 = 0x00 ∧
    negativeFlag (CPU.step cpuInc).registers.flags = false ∧
    (CPU.step cpuInc).registers.flags = 0 ∧
    zeroFlag (CPU.step cpuInc).registers.flags = false := by
  decide
